import Mathlib

/-!
Verification of the LED tape system's segment, effect, scheduling, clustering,
pooling and OSC-dispatch logic, shallowly embedded from the Python sources.

Numeric conventions: Python floats are modelled as rationals (ℚ), Python ints
as ℤ or ℕ.  `pyInt` models Python's `int(...)` (truncation toward zero) and
`pyMod` models Python's `%` on floats with a positive divisor
(`a % b = a - b*floor(a/b)`).
-/

/-- Python `int(x)`: truncation toward zero. -/
def pyInt (x : ℚ) : ℤ :=
  if 0 ≤ x then ⌊x⌋ else -⌊-x⌋

/-- Python `a % b` on floats (result has the divisor's sign; we use it with `b > 0`). -/
def pyMod (a b : ℚ) : ℚ :=
  a - b * ⌊a / b⌋

theorem pyMod_nonneg (a b : ℚ) (hb : 0 < b) : 0 ≤ pyMod a b := by
  unfold pyMod
  have h1 : (⌊a / b⌋ : ℚ) ≤ a / b := Int.floor_le _
  have h2 : (⌊a / b⌋ : ℚ) * b ≤ a := (le_div_iff₀ hb).mp h1
  nlinarith

theorem pyMod_lt (a b : ℚ) (hb : 0 < b) : pyMod a b < b := by
  unfold pyMod
  have h1 : a / b < ⌊a / b⌋ + 1 := Int.lt_floor_add_one _
  have h2 : a < (⌊a / b⌋ + 1) * b := (div_lt_iff₀ hb).mp h1
  nlinarith

theorem pyMod_add_right (a b : ℚ) (hb : b ≠ 0) : pyMod (a + b) b = pyMod a b := by
  unfold pyMod
  have h : (a + b) / b = a / b + 1 := by field_simp
  rw [h, Int.floor_add_one]
  push_cast
  ring

theorem pyInt_of_nonneg {x : ℚ} (h : 0 ≤ x) : pyInt x = ⌊x⌋ := by
  unfold pyInt
  exact if_pos h

theorem pyInt_bounds {x : ℚ} {m : ℤ} (h0 : 0 ≤ x) (h1 : x ≤ (m : ℚ)) :
    0 ≤ pyInt x ∧ pyInt x ≤ m := by
  rw [pyInt_of_nonneg h0]
  constructor
  · exact Int.le_floor.mpr (by exact_mod_cast h0)
  · calc ⌊x⌋ ≤ ⌊(m : ℚ)⌋ := Int.floor_mono h1
      _ = m := Int.floor_intCast m

/-- `models/light_segment.py`, class `LightSegment`.  The wall-clock quantity
`time.time() - start_time` used by `apply_dimming` is modelled by the explicit
field `elapsed`. -/
structure LightSegment where
  segment_ID : ℕ
  color : List ℤ
  transparency : List ℚ
  length : List ℚ
  move_speed : ℚ
  move_range : ℚ × ℚ
  initial_position : ℚ
  current_position : ℚ
  is_edge_reflect : Bool
  dimmer_time : List ℚ
  time : ℚ
  elapsed : ℚ
deriving DecidableEq

/-- `LightSegment.update_position(fps)` from `models/light_segment.py`. -/
def LightSegment.update_position (s : LightSegment) (fps : ℚ) : LightSegment :=
  let dt := 1 / fps
  let s := { s with time := s.time + dt }
  let delta := s.move_speed * dt
  let new_position := s.current_position + delta
  if s.is_edge_reflect then
    if new_position < s.move_range.1 then
      { s with current_position := s.move_range.1 + (s.move_range.1 - new_position),
               move_speed := s.move_speed * (-1) }
    else if new_position > s.move_range.2 then
      { s with current_position := s.move_range.2 - (new_position - s.move_range.2),
               move_speed := s.move_speed * (-1) }
    else
      { s with current_position := new_position }
  else
    if new_position < s.move_range.1 then
      { s with current_position :=
          s.move_range.2 - pyMod (s.move_range.1 - new_position) (s.move_range.2 - s.move_range.1 + 1) }
    else if new_position > s.move_range.2 then
      { s with current_position :=
          s.move_range.1 + pyMod (new_position - s.move_range.1) (s.move_range.2 - s.move_range.1 + 1) }
    else
      { s with current_position := new_position }

/-- `LightSegment.apply_dimming()` from `models/light_segment.py`; the five
dimmer values are read positionally (the source unpacks exactly five, so this
total model is faithful only for dimmer lists of at most 5 entries; the
unpack's `ValueError` on longer lists is modelled by
`LightSegment.apply_dimming?` below). -/
def LightSegment.apply_dimming (s : LightSegment) : ℚ :=
  if s.dimmer_time.length < 5 then 1
  else
    let delay_in := s.dimmer_time.getD 0 0
    let fade_in := s.dimmer_time.getD 1 0
    let stay := s.dimmer_time.getD 2 0
    let fade_out := s.dimmer_time.getD 3 0
    let delay_out := s.dimmer_time.getD 4 0
    let total_time := delay_in + fade_in + stay + fade_out + delay_out
    if total_time ≤ 0 then 1
    else
      let current_time := pyMod s.elapsed total_time
      if current_time < delay_in then 0
      else if current_time < delay_in + fade_in then (current_time - delay_in) / fade_in
      else if current_time < delay_in + fade_in + stay then 1
      else if current_time < delay_in + fade_in + stay + fade_out then
        1 - (current_time - delay_in - fade_in - stay) / fade_out
      else 0

/-- Branch-by-branch closed form of `LightSegment.apply_dimming` for a 5-entry
dimmer list. -/
theorem apply_dimming_eq (s : LightSegment) (a b c d e : ℚ)
    (hdt : s.dimmer_time = [a, b, c, d, e]) :
    s.apply_dimming =
      (if a + b + c + d + e ≤ 0 then 1
       else if pyMod s.elapsed (a + b + c + d + e) < a then 0
       else if pyMod s.elapsed (a + b + c + d + e) < a + b then
         (pyMod s.elapsed (a + b + c + d + e) - a) / b
       else if pyMod s.elapsed (a + b + c + d + e) < a + b + c then 1
       else if pyMod s.elapsed (a + b + c + d + e) < a + b + c + d then
         1 - (pyMod s.elapsed (a + b + c + d + e) - a - b - c) / d
       else 0) := by
  unfold LightSegment.apply_dimming
  rw [hdt]
  rfl

/-- Example segment for the C2 counterexample: `move_range=[0,9]`,
`current_position=8`, `move_speed=+4`, edge-reflecting. -/
def segC2 : LightSegment :=
  { segment_ID := 0, color := [0, 0, 0, 0], transparency := [0, 0, 0, 0],
    length := [1, 1, 1], move_speed := 4, move_range := (0, 9),
    initial_position := 8, current_position := 8, is_edge_reflect := true,
    dimmer_time := [], time := 0, elapsed := 0 }

/-- C2 counterexample: with `move_range=[0,9]`, `current_position=8`,
`move_speed=+4`, `fps=1`, the raw position is 12 as the claim states, but the
overflow past `hi=9` is 3, not 2, so the reflected position is `9−3=6` and not
the claimed `9−2=7`; the speed does become −4. -/
theorem C2_counterexample :
    segC2.current_position + segC2.move_speed * (1 / 1) = 12 ∧
    (segC2.update_position 1).current_position = 9 - 3 ∧
    (segC2.update_position 1).current_position ≠ 9 - 2 ∧
    (segC2.update_position 1).move_speed = -4 := by
  norm_num [LightSegment.update_position, segC2]

/-- C2 (amended): for an edge-reflecting segment with `lo ≤ hi`, an overshoot
below `lo` reflects to `lo + (lo − raw)` and an overshoot above `hi` reflects to
`hi − (raw − hi)`, negating `move_speed` in both cases; the reflected position
lies back inside `[lo, hi]` whenever the overshoot is at most the range width
`hi − lo` (as in the claim's example, which ends at position 9 − 3 = 6 with
speed −4). -/
theorem C2_edge_reflect (s : LightSegment) (fps : ℚ)
    (hr : s.is_edge_reflect = true)
    (hlo : s.move_range.1 ≤ s.move_range.2) :
    (s.current_position + s.move_speed * (1 / fps) < s.move_range.1 →
      (s.update_position fps).current_position
        = s.move_range.1 + (s.move_range.1 - (s.current_position + s.move_speed * (1 / fps))) ∧
      (s.update_position fps).move_speed = -s.move_speed ∧
      (s.move_range.1 - (s.current_position + s.move_speed * (1 / fps))
          ≤ s.move_range.2 - s.move_range.1 →
        s.move_range.1 ≤ (s.update_position fps).current_position ∧
        (s.update_position fps).current_position ≤ s.move_range.2)) ∧
    (s.current_position + s.move_speed * (1 / fps) > s.move_range.2 →
      (s.update_position fps).current_position
        = s.move_range.2 - ((s.current_position + s.move_speed * (1 / fps)) - s.move_range.2) ∧
      (s.update_position fps).move_speed = -s.move_speed ∧
      ((s.current_position + s.move_speed * (1 / fps)) - s.move_range.2
          ≤ s.move_range.2 - s.move_range.1 →
        s.move_range.1 ≤ (s.update_position fps).current_position ∧
        (s.update_position fps).current_position ≤ s.move_range.2)) := by
  constructor
  · intro h
    unfold LightSegment.update_position
    simp only [hr, if_true, if_pos h]
    refine ⟨by ring_nf, by ring_nf, ?_⟩
    intro hov
    constructor
    · linarith
    · linarith
  · intro h
    have hnl : ¬ (s.current_position + s.move_speed * (1 / fps) < s.move_range.1) := by
      intro hc
      linarith
    unfold LightSegment.update_position
    simp only [hr, if_true, if_neg hnl, if_pos h]
    refine ⟨by ring_nf, by ring_nf, ?_⟩
    intro hov
    constructor
    · linarith
    · linarith

/-- Witness for C2_edge_reflect at the claim's concrete input: position
`9 − (12 − 9) = 6`, inside the range, speed negated. -/
theorem C2_witness :
    segC2.is_edge_reflect = true ∧
    segC2.move_range.1 ≤ segC2.move_range.2 ∧
    segC2.current_position + segC2.move_speed * (1 / 1) > segC2.move_range.2 ∧
    (segC2.update_position 1).current_position
      = segC2.move_range.2 - ((segC2.current_position + segC2.move_speed * (1 / 1)) - segC2.move_range.2) ∧
    (segC2.update_position 1).move_speed = -segC2.move_speed ∧
    segC2.move_range.1 ≤ (segC2.update_position 1).current_position ∧
    (segC2.update_position 1).current_position ≤ segC2.move_range.2 := by
  have h := (C2_edge_reflect segC2 1 rfl (by norm_num [segC2])).2 (by norm_num [segC2])
  have hin := h.2.2 (by norm_num [segC2])
  exact ⟨rfl, by norm_num [segC2], by norm_num [segC2], h.1, h.2.1, hin.1, hin.2⟩

/-- Example segment for the C3 counterexample: non-reflecting, `move_range=[0,9]`,
`current_position=1`, `move_speed=−4`. -/
def segC3 : LightSegment :=
  { segC2 with is_edge_reflect := false, current_position := 1, move_speed := -4 }

/-- C3 counterexample: the raw position −3 lies below `lo=0`, and the code wraps
it to `hi − (lo − raw) mod 10 = 9 − 3 = 6`, not to the claimed
`lo + (raw − lo) mod 10 = 7`. -/
theorem C3_counterexample :
    (segC3.update_position 1).current_position = 6 ∧
    (segC3.update_position 1).current_position
      ≠ segC3.move_range.1
        + pyMod ((segC3.current_position + segC3.move_speed * (1 / 1)) - segC3.move_range.1)
            (segC3.move_range.2 - segC3.move_range.1 + 1) := by
  norm_num [LightSegment.update_position, segC3, segC2, pyMod]

/-- C3 (amended): for a non-reflecting segment, a raw position above `hi` wraps
to `lo + (raw − lo) mod (hi−lo+1)` (this matches the claim, and gives 2 in the
claim's example), but a raw position below `lo` wraps to
`hi − (lo − raw) mod (hi−lo+1)`. -/
theorem C3_wrap (s : LightSegment) (fps : ℚ)
    (hr : s.is_edge_reflect = false)
    (hlo : s.move_range.1 ≤ s.move_range.2) :
    (s.current_position + s.move_speed * (1 / fps) > s.move_range.2 →
      (s.update_position fps).current_position
        = s.move_range.1
          + pyMod ((s.current_position + s.move_speed * (1 / fps)) - s.move_range.1)
              (s.move_range.2 - s.move_range.1 + 1)) ∧
    (s.current_position + s.move_speed * (1 / fps) < s.move_range.1 →
      (s.update_position fps).current_position
        = s.move_range.2
          - pyMod (s.move_range.1 - (s.current_position + s.move_speed * (1 / fps)))
              (s.move_range.2 - s.move_range.1 + 1)) := by
  constructor
  · intro h
    have hnl : ¬ (s.current_position + s.move_speed * (1 / fps) < s.move_range.1) := by
      intro hc
      linarith
    unfold LightSegment.update_position
    simp only [hr, if_false, Bool.false_eq_true, if_neg hnl, if_pos h]
  · intro h
    unfold LightSegment.update_position
    simp only [hr, if_false, Bool.false_eq_true, if_pos h]

/-- Non-reflecting segment at the claim's example input (`current_position=8`,
`move_speed=+4`). -/
def segC3w : LightSegment :=
  { segC3 with current_position := 8, move_speed := 4 }

/-- Witness for C3_wrap: the claim's example wraps `raw=12` to
`0 + 12 mod 10 = 2`. -/
theorem C3_witness :
    segC3w.is_edge_reflect = false ∧
    segC3w.current_position + segC3w.move_speed * (1 / 1) > segC3w.move_range.2 ∧
    (segC3w.update_position 1).current_position = 2 := by
  refine ⟨rfl, by norm_num [segC3w, segC3, segC2], ?_⟩
  have h := (C3_wrap segC3w 1 rfl (by norm_num [segC3w, segC3, segC2])).1
    (by norm_num [segC3w, segC3, segC2])
  rw [h]
  norm_num [segC3w, segC3, segC2, pyMod]

/-- C4: with a 5-entry dimmer list of non-negative values, `apply_dimming` is
1 when the list is shorter than 5 entries or the total is non-positive, and
otherwise follows the delay/fade-in/stay/fade-out/delay-out envelope as a
function of `u = elapsed mod total`, repeating with period `total`. -/
theorem C4_apply_dimming (s : LightSegment) (d_in f_in stay f_out d_out total u : ℚ)
    (hdt : s.dimmer_time = [d_in, f_in, stay, f_out, d_out])
    (hn1 : 0 ≤ d_in) (hn2 : 0 ≤ f_in) (hn3 : 0 ≤ stay) (hn4 : 0 ≤ f_out) (hn5 : 0 ≤ d_out)
    (htotal : total = d_in + f_in + stay + f_out + d_out)
    (hu : u = pyMod s.elapsed total) :
    (∀ s' : LightSegment, s'.dimmer_time.length < 5 → s'.apply_dimming = 1) ∧
    (total ≤ 0 → s.apply_dimming = 1) ∧
    (0 < total →
      (u < d_in → s.apply_dimming = 0) ∧
      (d_in ≤ u → u < d_in + f_in → s.apply_dimming = (u - d_in) / f_in) ∧
      (d_in + f_in ≤ u → u < d_in + f_in + stay → s.apply_dimming = 1) ∧
      (d_in + f_in + stay ≤ u → u < d_in + f_in + stay + f_out →
        s.apply_dimming = 1 - (u - d_in - f_in - stay) / f_out) ∧
      (d_in + f_in + stay + f_out ≤ u → s.apply_dimming = 0) ∧
      ({ s with elapsed := s.elapsed + total } : LightSegment).apply_dimming
        = s.apply_dimming) := by
  subst htotal
  subst hu
  have key := apply_dimming_eq s d_in f_in stay f_out d_out hdt
  refine ⟨?_, ?_, ?_⟩
  · intro s' h
    unfold LightSegment.apply_dimming
    rw [if_pos h]
  · intro htot
    rw [key, if_pos htot]
  · intro htot
    have hntot : ¬ (d_in + f_in + stay + f_out + d_out ≤ 0) := not_le.mpr htot
    refine ⟨?_, ?_, ?_, ?_, ?_, ?_⟩
    · intro h
      rw [key, if_neg hntot, if_pos h]
    · intro h1 h2
      rw [key, if_neg hntot, if_neg (not_lt.mpr h1), if_pos h2]
    · intro h1 h2
      rw [key, if_neg hntot, if_neg (not_lt.mpr (by linarith)),
          if_neg (not_lt.mpr h1), if_pos h2]
    · intro h1 h2
      rw [key, if_neg hntot, if_neg (not_lt.mpr (by linarith)),
          if_neg (not_lt.mpr (by linarith)), if_neg (not_lt.mpr h1), if_pos h2]
    · intro h1
      rw [key, if_neg hntot, if_neg (not_lt.mpr (by linarith)),
          if_neg (not_lt.mpr (by linarith)), if_neg (not_lt.mpr (by linarith)),
          if_neg (not_lt.mpr h1)]
    · have key2 := apply_dimming_eq
        { s with elapsed := s.elapsed + (d_in + f_in + stay + f_out + d_out) }
        d_in f_in stay f_out d_out hdt
      rw [key, key2]
      have he : ({ s with elapsed := s.elapsed + (d_in + f_in + stay + f_out + d_out) }
          : LightSegment).elapsed = s.elapsed + (d_in + f_in + stay + f_out + d_out) := rfl
      rw [he, pyMod_add_right s.elapsed (d_in + f_in + stay + f_out + d_out) (ne_of_gt htot)]

/-- Segment for the C4 witness: dimmer envelope `[1,1,1,1,1]`, elapsed time
`3/2` (inside the fade-in window). -/
def segC4w : LightSegment :=
  { segC2 with dimmer_time := [1, 1, 1, 1, 1], elapsed := 3 / 2 }

/-- Witness for C4_apply_dimming: at elapsed `3/2` the envelope is mid-fade-in,
returning `(3/2 − 1)/1 = 1/2`. -/
theorem C4_witness :
    segC4w.dimmer_time = [1, 1, 1, 1, 1] ∧
    pyMod segC4w.elapsed 5 = 3 / 2 ∧
    segC4w.apply_dimming = 1 / 2 := by
  have hm : pyMod segC4w.elapsed 5 = 3 / 2 := by
    norm_num [segC4w, segC2, pyMod]
  have h := (C4_apply_dimming segC4w 1 1 1 1 1 5 (pyMod segC4w.elapsed 5) rfl
    (by norm_num) (by norm_num) (by norm_num) (by norm_num) (by norm_num)
    (by norm_num) rfl).2.2 (by norm_num)
  have h2 := h.2.1 (by rw [hm]; norm_num) (by rw [hm]; norm_num)
  refine ⟨rfl, hm, ?_⟩
  rw [h2, hm]
  norm_num

namespace color_utils

/-- `utils/color_utils.py`, `color_from_palette(color_index)`: clamp the index
to the 24-bit palette and split it into RGB channels. -/
def color_from_palette (color_index : ℤ) : List ℤ :=
  let ci := max 0 (min (16777216 - 1) color_index)
  [((ci.toNat >>> 16) &&& 0xFF : ℕ), ((ci.toNat >>> 8) &&& 0xFF : ℕ), (ci.toNat &&& 0xFF : ℕ)]

/-- `utils/color_utils.py`, `interpolate_color(color1, color2, ratio)`. -/
def interpolate_color (color1 color2 : List ℤ) ( ratio : ℚ) : List ℤ :=
  [pyInt ((color1.getD 0 0 : ℚ) + ((color2.getD 0 0 : ℚ) - (color1.getD 0 0 : ℚ)) * ratio),
   pyInt ((color1.getD 1 0 : ℚ) + ((color2.getD 1 0 : ℚ) - (color1.getD 1 0 : ℚ)) * ratio),
   pyInt ((color1.getD 2 0 : ℚ) + ((color2.getD 2 0 : ℚ) - (color1.getD 2 0 : ℚ)) * ratio)]

/-- `utils/color_utils.py`, `apply_dimming(color, dimming_factor)` (the free
function, distinct from `LightSegment.apply_dimming`). -/
def apply_dimming (color : List ℤ) (dimming_factor : ℚ) : List ℤ :=
  color.map (fun (c : ℤ) => pyInt ((c : ℚ) * dimming_factor))

end color_utils

/-- `LightSegment.calculate_rgb()`: palette lookup for each of the colour
indices (the source caches this as `rgb_color`). -/
def LightSegment.calculate_rgb (s : LightSegment) : List (List ℤ) :=
  s.color.map color_utils.color_from_palette

/-- `LightSegment.get_light_data()` from `models/light_segment.py`: anchor
positions (a running prefix-sum of the section lengths, flipped when moving
left) and the dimmed anchor colours. -/
def LightSegment.get_light_data (s : LightSegment) : List ℚ × List (List ℤ) :=
  let total_length := s.length.sum
  if total_length ≤ 0 then ([], [])
  else
    let position_offsets := List.scanl (fun a b => a + b) (0 : ℚ) s.length
    let dimming_factor := s.apply_dimming
    let base_position := s.current_position
    let position_offsets :=
      if s.move_speed < 0 then
        position_offsets.reverse.map (fun offset => total_length - offset)
      else position_offsets
    let positions := position_offsets.map (fun offset => base_position + offset)
    let dimmed_colors := s.calculate_rgb.map (fun color => color_utils.apply_dimming color dimming_factor)
    (positions, dimmed_colors)

/-- Per-LED compositing state of `LightEffect.get_led_output`: the working
colour buffer and transparency buffer. -/
structure LEDState where
  led_colors : List (List ℤ)
  led_transparency : List ℚ
deriving DecidableEq

/-- One guarded write of `LightEffect.get_led_output`: overwrite the LED at
`pos` only when the incoming transparency is strictly lower (strict `>` test on
the stored value). -/
def setLED (st : LEDState) (pos : ℕ) (color : List ℤ) (trans : ℚ) : LEDState :=
  if st.led_transparency.getD pos 1 > trans then
    { led_colors := st.led_colors.set pos color,
      led_transparency := st.led_transparency.set pos trans }
  else st

/-- The body of `get_led_output`'s loop over consecutive anchor pairs
(`for i in range(len(positions) - 1)` in `models/light_effect.py`). -/
def processPair (led_count : ℕ) (positions : List ℚ) (colors : List (List ℤ))
    (transparency : List ℚ) (st : LEDState) (i : ℕ) : LEDState :=
  let start_pos := positions.getD i 0
  let end_pos := positions.getD (i + 1) 0
  let start_color := colors.getD i [0, 0, 0]
  let end_color := colors.getD (i + 1) [0, 0, 0]
  let start_trans := transparency.getD i 0
  let end_trans := transparency.getD (i + 1) 0
  let start_led : ℤ := max 0 (min ((led_count : ℤ) - 1) (pyInt start_pos))
  let end_led : ℤ := max 0 (min ((led_count : ℤ) - 1) (pyInt end_pos))
  if start_led > (led_count : ℤ) - 1 ∨ end_led < 0 then st
  else if start_led = end_led then
    setLED st start_led.toNat start_color start_trans
  else
    let led_range := (end_led - start_led).natAbs + 1
    let direction : ℤ := if end_led ≥ start_led then 1 else -1
    (List.range led_range).foldl
      (fun st (j : ℕ) =>
        let pos := start_led + (j : ℤ) * direction
        if pos < 0 ∨ pos ≥ (led_count : ℤ) then st
        else
          let ratio := (j : ℚ) / ((max 1 (led_range - 1) : ℕ) : ℚ)
          let color := color_utils.interpolate_color start_color end_color ratio
          let trans := start_trans + (end_trans - start_trans) * ratio
          setLED st pos.toNat color trans)
      st

/-- The per-segment step of `get_led_output` (one iteration of
`for segment in self.segments.values()`). -/
def processSegment (led_count : ℕ) (st : LEDState) (segment : LightSegment) : LEDState :=
  let data := segment.get_light_data
  if data.1 = [] ∨ data.2 = [] then st
  else
    (List.range (data.1.length - 1)).foldl
      (processPair led_count data.1 data.2 segment.transparency) st

/-- `models/light_effect.py`, class `LightEffect`: the segments are kept in the
mapping's insertion order. -/
structure LightEffect where
  effect_ID : ℕ
  led_count : ℕ
  segments : List LightSegment
deriving DecidableEq

/-- `LightEffect.get_led_output()` from `models/light_effect.py`: composite all
segments by the most-opaque-wins rule, then scale every LED by its final
opacity `1 − transparency`. -/
def LightEffect.get_led_output (e : LightEffect) : List (List ℤ) :=
  let init : LEDState :=
    { led_colors := List.replicate e.led_count [0, 0, 0],
      led_transparency := List.replicate e.led_count 1 }
  let st := e.segments.foldl (processSegment e.led_count) init
  List.zipWith
    (fun color trans =>
      let opacity := 1 - trans
      if opacity > 0 then color.map (fun (c : ℤ) => pyInt ((c : ℚ) * opacity)) else color)
    st.led_colors st.led_transparency

theorem color_red : color_utils.color_from_palette 16711680 = [255, 0, 0] := by
  decide

theorem color_blue : color_utils.color_from_palette 255 = [0, 0, 255] := by
  decide

/-- Segment A of the C1 scenario: red, transparency 0.2, occupying LEDs 1–2 of
a 3-LED buffer. -/
def segC1A : LightSegment :=
  { segment_ID := 1, color := [16711680, 16711680, 16711680, 16711680],
    transparency := [1/5, 1/5, 1/5, 1/5], length := [1, 0, 0], move_speed := 0,
    move_range := (0, 9), initial_position := 1, current_position := 1,
    is_edge_reflect := false, dimmer_time := [], time := 0, elapsed := 0 }

/-- Segment B of the C1 scenario: blue, transparency 0.5, same footprint. -/
def segC1B : LightSegment :=
  { segC1A with
    segment_ID := 2, color := [255, 255, 255, 255],
    transparency := [1/2, 1/2, 1/2, 1/2] }

/-- Segment B with transparency tied with A (0.2). -/
def segC1Btie : LightSegment :=
  { segC1B with transparency := [1/5, 1/5, 1/5, 1/5] }

def effectC1AB : LightEffect :=
  { effect_ID := 1, led_count := 3, segments := [segC1A, segC1B] }

def effectC1BA : LightEffect :=
  { effect_ID := 1, led_count := 3, segments := [segC1B, segC1A] }

def effectC1ABtie : LightEffect :=
  { effect_ID := 1, led_count := 3, segments := [segC1A, segC1Btie] }

def effectC1BAtie : LightEffect :=
  { effect_ID := 1, led_count := 3, segments := [segC1Btie, segC1A] }

set_option maxHeartbeats 1600000 in
/-- C1: in `get_led_output` the contributor with the strictly lower
transparency wins outright.  With segment A (red, transparency 0.2) and
segment B (blue, transparency 0.5) writing the same LEDs of a 3-LED buffer,
the buffer keeps A's colour (scaled by the final opacity 0.8:
`int(255·0.8)=204`) whichever segment is processed first, and the two
processing orders return identical buffers; on an exact transparency tie the
first-processed segment wins (A first keeps red, B first keeps blue), because
the overwrite test uses strict `>`. -/
theorem C1_most_opaque_wins :
    effectC1AB.get_led_output = effectC1BA.get_led_output ∧
    effectC1AB.get_led_output = [[0, 0, 0], [204, 0, 0], [204, 0, 0]] ∧
    effectC1ABtie.get_led_output = [[0, 0, 0], [204, 0, 0], [204, 0, 0]] ∧
    effectC1BAtie.get_led_output = [[0, 0, 0], [0, 0, 204], [0, 0, 204]] := by
  refine ⟨?_, ?_, ?_, ?_⟩ <;>
    norm_num [LightEffect.get_led_output, effectC1AB, effectC1BA, effectC1ABtie,
      effectC1BAtie, processSegment, processPair, setLED,
      LightSegment.get_light_data, LightSegment.apply_dimming,
      LightSegment.calculate_rgb, segC1A, segC1B, segC1Btie, List.scanl,
      color_red, color_blue, color_utils.apply_dimming,
      color_utils.interpolate_color, pyInt, List.range_succ, List.getD,
      List.replicate, List.set,
      show Int.toNat 0 = 0 from rfl, show Int.toNat 1 = 1 from rfl,
      show Int.toNat 2 = 2 from rfl, show Int.toNat 3 = 3 from rfl,
      List.getElem?_cons_succ, List.getElem?_cons_zero, Option.getD_some,
      List.cons_ne_nil, ne_eq, not_false_eq_true, and_self, List.zipWith]

/-- `services/clustering.py`, class `LEDCluster`.  `effect_ids` is a Python
set of ints, modelled as a duplicate-free list. -/
structure LEDCluster where
  cluster_id : ℕ
  led_indices : List ℕ
  effect_ids : List ℕ
  position : ℚ × ℚ × ℚ
  bounding_box : (ℚ × ℚ × ℚ) × (ℚ × ℚ × ℚ)
  priority : ℤ
  active : Bool
deriving DecidableEq

/-- Values stored in the dictionary returned by `LEDCluster.get_info`. -/
inductive InfoVal where
  | int (n : ℤ)
  | ids (l : List ℕ)
  | pos (p : ℚ × ℚ × ℚ)
  | box (b : (ℚ × ℚ × ℚ) × (ℚ × ℚ × ℚ))
  | bool (b : Bool)
deriving DecidableEq

/-- Reading an id list out of an `InfoVal` (iterating a non-list value would
raise in Python; the only value read this way in the source is the `[]`
default). -/
def InfoVal.asIdList : InfoVal → List ℕ
  | .ids l => l
  | _ => []

/-- `LEDCluster.get_info()` from `services/clustering.py`: note the keys — it
exposes `effect_count` but no `effect_ids` key. -/
def LEDCluster.get_info (c : LEDCluster) : List (String × InfoVal) :=
  [("cluster_id", InfoVal.int c.cluster_id),
   ("led_count", InfoVal.int c.led_indices.length),
   ("effect_count", InfoVal.int c.effect_ids.length),
   ("position", InfoVal.pos c.position),
   ("bounding_box", InfoVal.box c.bounding_box),
   ("priority", InfoVal.int c.priority),
   ("active", InfoVal.bool c.active)]

/-- Python `dict.get(key, default)` over an association list. -/
def dictGet (d : List (String × InfoVal)) (key : String) (default : InfoVal) : InfoVal :=
  match d.find? (fun kv => kv.1 == key) with
  | some kv => kv.2
  | none => default

/-- A work item created by `DistributionService.distribute_work`, reduced to
the fields `distribute_effect_updates` fills: the work type and the payload
(`cluster_id` and the keys of the `effects` dict). -/
structure WorkItem where
  work_type : String
  cluster_id : Option ℕ
  effect_ids : List ℕ
deriving DecidableEq

/-- Loop body of the clustered branch of
`DistributionService.distribute_effect_updates`. -/
def distributeClusterStep (effects : List ℕ) (work_items : List WorkItem)
    (cluster : LEDCluster) : List WorkItem :=
  let cluster_info := cluster.get_info
  let cluster_effects :=
    (InfoVal.asIdList (dictGet cluster_info ("effect_ids") (InfoVal.ids []))).filter
      (fun eid => effects.contains eid)
  if cluster_effects ≠ [] then
    work_items ++ [{ work_type := "update_cluster",
                     cluster_id := some cluster.cluster_id,
                     effect_ids := cluster_effects }]
  else work_items

/-- `DistributionService.distribute_effect_updates(effects)` from
`services/distribution.py`, as the list of work items it creates.  `effects`
is the list of effect ids (dict keys); a clustering service, when attached, is
its list of clusters in insertion order. -/
def distribute_effect_updates (clustering_service : Option (List LEDCluster))
    (effects : List ℕ) : List WorkItem :=
  match clustering_service with
  | some clusters => clusters.foldl (distributeClusterStep effects) []
  | none =>
    effects.map (fun eid =>
      { work_type := "update_effect", cluster_id := none, effect_ids := [eid] })

namespace scheduler

/-- `services/scheduler.py`, class `Task`.  The invocable and its arguments
are abstracted away: `execute` takes the wall-clock time at entry
(`start_time`, the first `time.time()` call) and the running time of the
invoked function (`duration`), so the second `time.time()` call reads
`start_time + duration`. -/
structure Task where
  task_id : ℕ
  interval : Option ℚ
  next_run : ℚ
  last_run : Option ℚ
  execution_count : ℕ
  total_execution_time : ℚ
  is_cancelled : Bool
deriving DecidableEq

/-- `Task.execute()` from `services/scheduler.py`. -/
def Task.execute (t : Task) (start_time duration : ℚ) : Task :=
  if t.is_cancelled then t
  else
    let t1 := { t with last_run := some start_time }
    let execution_time := (start_time + duration) - start_time
    let t2 := { t1 with
      execution_count := t1.execution_count + 1,
      total_execution_time := t1.total_execution_time + execution_time }
    match t2.interval with
    | some interval =>
      if t2.is_cancelled then t2
      else { t2 with next_run := (start_time + duration) + interval }
    | none => t2

end scheduler

/-- `services/clustering.py`, class `ClusteringService`: the cluster registry
(insertion order), the `led_index → cluster_id` reverse index (a dict,
modelled as an association list), and the monotone id counter. -/
structure ClusteringState where
  clusters : List LEDCluster
  led_to_cluster : List (ℕ × ℕ)
  next_cluster_id : ℕ
deriving DecidableEq

/-- Python dict assignment `d[key] = val` on an association list. -/
def dictSet (d : List (ℕ × ℕ)) (key val : ℕ) : List (ℕ × ℕ) :=
  if d.any (fun kv => kv.1 == key) then
    d.map (fun kv => if kv.1 == key then (key, val) else kv)
  else d ++ [(key, val)]

/-- `ClusteringService.create_cluster(led_indices)`. -/
def create_cluster (st : ClusteringState) (led_indices : List ℕ) :
    ClusteringState × ℕ :=
  let cluster_id := st.next_cluster_id
  let cluster : LEDCluster :=
    { cluster_id := cluster_id, led_indices := led_indices, effect_ids := [],
      position := (0, 0, 0), bounding_box := ((0, 0, 0), (0, 0, 0)),
      priority := 0, active := true }
  let st1 := { st with
    next_cluster_id := st.next_cluster_id + 1,
    clusters := st.clusters ++ [cluster] }
  let st2 := { st1 with
    led_to_cluster :=
      led_indices.foldl (fun m led_index => dictSet m led_index cluster_id)
        st1.led_to_cluster }
  (st2, cluster_id)

/-- Python `range(0, stop, step)` for `step > 0`. -/
def rangeStep (stop step : ℕ) : List ℕ :=
  if step = 0 then [] else (List.range ((stop + step - 1) / step)).map (· * step)

/-- `ClusteringService.cluster_by_linear_groups(led_count, group_size)`:
clears all clusters and the reverse index, then partitions `[0, led_count)`
into contiguous groups of `group_size` (the last group may be shorter). -/
def cluster_by_linear_groups (st : ClusteringState) (led_count group_size : ℕ) :
    ClusteringState × List ℕ :=
  let st0 := { st with clusters := [], led_to_cluster := [] }
  (rangeStep led_count group_size).foldl
    (fun acc i =>
      let start_index := i
      let end_index := min (i + group_size) led_count
      let led_indices := List.range' start_index (end_index - start_index)
      let r := create_cluster acc.1 led_indices
      (r.1, acc.2 ++ [r.2]))
    (st0, [])

/-- `utils/memory_pool.py`, class `ObjectPool`: objects are modelled by
identity tokens (ℕ); `used_objects` is the dict of weak-tracked in-use ids. -/
structure ObjectPool where
  pool : List ℕ
  max_size : ℕ
  returned_count : ℕ
  used_objects : List ℕ
deriving DecidableEq

/-- `ObjectPool.return_object(obj)` from `utils/memory_pool.py`: note the
early return when the free list is full. -/
def ObjectPool.return_object (p : ObjectPool) (obj : ℕ) : ObjectPool :=
  if p.pool.length ≥ p.max_size then p
  else
    let p1 := { p with pool := p.pool ++ [obj],
                       returned_count := p.returned_count + 1 }
    if p1.used_objects.contains obj then
      { p1 with used_objects := p1.used_objects.erase obj }
    else p1

/-- Outcome classifier for `OSCHandler.osc_callback` (which branch of the
dispatch ran). -/
inductive OSCAction where
  | no_value
  | cleared (effect_id : ℕ)
  | updated (effect_id segment_id : ℕ) (param_name : String) (value : ℤ)
  | segment_not_found (effect_id segment_id : ℕ)
  | invalid_command
  | effect_not_found (effect_id : ℕ)
  | no_op
deriving DecidableEq

/-- `OSCHandler.osc_callback` from `controllers/osc_handler.py`, after the
address regex has produced `effect_id`, the optional `segment_id` and the
optional `param_name` (`\w+` cannot match an empty string, so a present
`param_name` is always truthy).  `light_effects` maps effect ids to their
segments mapping, reduced to the segment-id key list; in-place parameter
updates do not change that mapping and are reported through the returned
`OSCAction`. -/
def osc_callback (light_effects : List (ℕ × List ℕ)) (effect_id : ℕ)
    (segment_id : Option ℕ) (param_name : Option String) (args : List ℤ) :
    List (ℕ × List ℕ) × OSCAction :=
  if args = [] then (light_effects, OSCAction.no_value)
  else
    let value := args.headD 0
    if light_effects.any (fun kv => kv.1 == effect_id) then
      match segment_id with
      | none =>
        if param_name = some ("clear") then
          (light_effects.map (fun kv => if kv.1 == effect_id then (kv.1, []) else kv),
           OSCAction.cleared effect_id)
        else (light_effects, OSCAction.no_op)
      | some sid =>
        match param_name with
        | some pname =>
          if (light_effects.find? (fun kv => kv.1 == effect_id)).elim [] Prod.snd
              |>.contains sid then
            (light_effects, OSCAction.updated effect_id sid pname value)
          else (light_effects, OSCAction.segment_not_found effect_id sid)
        | none => (light_effects, OSCAction.invalid_command)
    else (light_effects, OSCAction.effect_not_found effect_id)

/-- `get_info` exposes no `effect_ids` key, so the dictionary lookup in
`distribute_effect_updates` always returns its default. -/
theorem get_info_no_effect_ids (c : LEDCluster) (v : InfoVal) :
    dictGet c.get_info ("effect_ids") v = v := rfl

theorem distributeClusterStep_eq (effects : List ℕ) (acc : List WorkItem)
    (c : LEDCluster) : distributeClusterStep effects acc c = acc := by
  simp [distributeClusterStep, get_info_no_effect_ids, InfoVal.asIdList]

theorem distribute_clustered_empty (clusters : List LEDCluster) (effects : List ℕ) :
    distribute_effect_updates (some clusters) effects = [] := by
  show clusters.foldl (distributeClusterStep effects) [] = []
  induction clusters with
  | nil => rfl
  | cons c cs ih =>
    rw [List.foldl_cons, distributeClusterStep_eq]
    exact ih

/-- Cluster for the C5 failing input: associated with effect 1. -/
def clusterC5 : LEDCluster :=
  { cluster_id := 1, led_indices := [0, 1], effect_ids := [1],
    position := (0, 0, 0), bounding_box := ((0, 0, 0), (0, 0, 0)),
    priority := 0, active := true }

/-- C5 (code bug): with a clustering service attached,
`distribute_effect_updates` creates no work items at all — for every cluster
the `cluster_info.get("effect_ids", [])` lookup hits the default because
`LEDCluster.get_info` has no `effect_ids` key — even for a cluster whose
`effect_ids` intersect the given effects; without a clustering service it does
create one `update_effect` item per effect as claimed. -/
theorem C5_distribute_effect_updates :
    (∀ clusters effects, distribute_effect_updates (some clusters) effects = []) ∧
    (∀ effects, distribute_effect_updates none effects
      = effects.map (fun eid =>
          { work_type := "update_effect", cluster_id := none, effect_ids := [eid] })) ∧
    clusterC5.effect_ids = [1] ∧
    distribute_effect_updates (some [clusterC5]) [1] = [] ∧
    dictGet clusterC5.get_info ("effect_ids") (InfoVal.ids []) = InfoVal.ids [] :=
  ⟨fun clusters effects => distribute_clustered_empty clusters effects,
   fun _ => rfl, rfl, distribute_clustered_empty [clusterC5] [1], rfl⟩

/-- Recurring task for the C6 counterexample: `interval = 10`. -/
def taskC6 : scheduler.Task :=
  { task_id := 1, interval := some 10, next_run := 0, last_run := none,
    execution_count := 0, total_execution_time := 0, is_cancelled := false }

/-- C6 counterexample: a recurring task whose function starts at time 100 and
runs for 5 time units is re-queued with `next_run = 115 = end-of-execution +
interval`, not `110 = start-of-execution + interval` as the claim states. -/
theorem C6_counterexample :
    (taskC6.execute 100 5).next_run = 115 ∧
    (taskC6.execute 100 5).next_run ≠ 100 + 10 := by
  norm_num [scheduler.Task.execute, taskC6]

/-- C6 (amended): a recurring, non-cancelled task is re-queued with `next_run`
advanced by exactly its interval from the moment its function finished
executing (`time.time()` is re-read after the function returns), not from its
originally scheduled time nor from its execution start. -/
theorem C6_next_run (t : scheduler.Task) (start_time duration i : ℚ)
    (hi : t.interval = some i) (hc : t.is_cancelled = false) :
    (t.execute start_time duration).next_run = (start_time + duration) + i ∧
    (t.execute start_time duration).interval = some i ∧
    (t.execute start_time duration).is_cancelled = false := by
  simp [scheduler.Task.execute, hi, hc]

/-- Witness for C6_next_run at the counterexample's input. -/
theorem C6_witness :
    taskC6.interval = some 10 ∧ taskC6.is_cancelled = false ∧
    (taskC6.execute 100 5).next_run = (100 + 5) + 10 :=
  ⟨rfl, rfl, (C6_next_run taskC6 100 5 10 rfl rfl).1⟩

/-- Fresh clustering service state (`next_cluster_id` starts at 1). -/
def clusteringInit : ClusteringState :=
  { clusters := [], led_to_cluster := [], next_cluster_id := 1 }

set_option maxRecDepth 10000 in
set_option maxHeartbeats 4000000 in
/-- C7: `cluster_by_linear_groups(led_count=250, group_size=100)` produces
exactly the 3 clusters `[0,100)`, `[100,200)`, `[200,250)` (ids 1, 2, 3), the
clusters are pairwise disjoint, and afterwards `led_to_cluster` holds exactly
one entry for each of the 250 LED indices. -/
theorem C7_linear_groups :
    ((cluster_by_linear_groups clusteringInit 250 100).1.clusters.map
        LEDCluster.led_indices
      = [List.range' 0 100, List.range' 100 100, List.range' 200 50]) ∧
    (cluster_by_linear_groups clusteringInit 250 100).2 = [1, 2, 3] ∧
    ((cluster_by_linear_groups clusteringInit 250 100).1.clusters.Pairwise
      (fun c1 c2 => ∀ led_index ∈ c1.led_indices, led_index ∉ c2.led_indices)) ∧
    (∀ led_index ∈ List.range 250,
      ((cluster_by_linear_groups clusteringInit 250 100).1.led_to_cluster.filter
        (fun kv => kv.1 == led_index)).length = 1) := by
  decide

/-- Full pool for the C8 counterexample: the free list already holds
`max_size = 1` objects while object 2 is tracked as in use. -/
def poolC8 : ObjectPool :=
  { pool := [1], max_size := 1, returned_count := 0, used_objects := [2] }

/-- C8 counterexample: returning object 2 to a full pool takes the early
`return` — the whole state is unchanged, so object 2 is NOT removed from the
in-use tracking set, contradicting the claim's "in either case". -/
theorem C8_counterexample :
    poolC8.pool.length = poolC8.max_size ∧
    poolC8.return_object 2 = poolC8 ∧
    2 ∈ (poolC8.return_object 2).used_objects := by
  decide

/-- C8 (amended): starting from a state whose free list respects `max_size`,
`return_object` keeps the free list within `max_size`; when the free list is
full it discards the object leaving the whole state (including the in-use
tracking set) unchanged; otherwise it appends the object to the free list and
removes its entry from the in-use tracking set. -/
theorem C8_return_object (p : ObjectPool) (obj : ℕ)
    (hlen : p.pool.length ≤ p.max_size) :
    (p.return_object obj).pool.length ≤ p.max_size ∧
    (p.max_size ≤ p.pool.length → p.return_object obj = p) ∧
    (p.pool.length < p.max_size →
      (p.return_object obj).pool = p.pool ++ [obj] ∧
      (p.return_object obj).used_objects = p.used_objects.erase obj) := by
  unfold ObjectPool.return_object
  by_cases hfull : p.pool.length ≥ p.max_size
  · rw [if_pos hfull]
    exact ⟨hlen, fun _ => rfl, fun hlt => absurd hfull (not_le.mpr hlt)⟩
  · rw [if_neg hfull]
    push_neg at hfull
    by_cases hc : p.used_objects.contains obj = true
    · rw [if_pos hc]
      refine ⟨?_, fun hge => absurd hge (not_le.mpr hfull), fun _ => ⟨rfl, rfl⟩⟩
      simp only [List.length_append, List.length_cons, List.length_nil]
      omega
    · rw [if_neg hc]
      refine ⟨?_, fun hge => absurd hge (not_le.mpr hfull), fun _ => ⟨rfl, ?_⟩⟩
      · simp only [List.length_append, List.length_cons, List.length_nil]
        omega
      · have hnm : obj ∉ p.used_objects := by
          simpa using hc
        rw [List.erase_of_not_mem hnm]

/-- Non-full pool for the C8 witness. -/
def poolC8w : ObjectPool :=
  { pool := [], max_size := 1, returned_count := 0, used_objects := [5] }

/-- Witness for C8_return_object: a non-full pool appends the object and
drops it from the in-use set, staying within `max_size`. -/
theorem C8_witness :
    poolC8w.pool.length ≤ poolC8w.max_size ∧
    poolC8w.pool.length < poolC8w.max_size ∧
    (poolC8w.return_object 5).pool = poolC8w.pool ++ [5] ∧
    (poolC8w.return_object 5).used_objects = poolC8w.used_objects.erase 5 ∧
    (poolC8w.return_object 5).pool.length ≤ poolC8w.max_size := by
  have h := C8_return_object poolC8w 5 (by decide)
  exact ⟨by decide, by decide, (h.2.2 (by decide)).1, (h.2.2 (by decide)).2, h.1⟩

/-- Effects registry for the C9 counterexample: effect 1 owns segments 1, 2. -/
def effectsC9 : List (ℕ × List ℕ) := [(1, [1, 2])]

/-- C9 counterexample: a `/effect/1/clear` message carrying an empty OSC
argument list is rejected by the `if not args` guard before the clear branch —
the effect's segments are NOT cleared, contradicting "regardless of the OSC
argument list". -/
theorem C9_counterexample :
    (osc_callback effectsC9 1 none (some ("clear")) []).1 = [(1, [1, 2])] ∧
    (osc_callback effectsC9 1 none (some ("clear")) []).2 = OSCAction.no_value := by
  decide

/-- C9 (amended): a message matching `/effect/<id>/clear` with no segment
component, for a registered effect id, empties that effect's segments mapping
for every OSC argument list containing at least one argument (an empty
argument list is rejected by the `no value` guard). -/
theorem C9_clear (light_effects : List (ℕ × List ℕ)) (effect_id : ℕ)
    (args : List ℤ)
    (hmem : light_effects.any (fun kv => kv.1 == effect_id) = true)
    (hargs : args ≠ []) :
    (osc_callback light_effects effect_id none (some ("clear")) args).1
      = light_effects.map
          (fun kv => if kv.1 == effect_id then (kv.1, ([] : List ℕ)) else kv) ∧
    (osc_callback light_effects effect_id none (some ("clear")) args).2
      = OSCAction.cleared effect_id := by
  unfold osc_callback
  rw [if_neg hargs]
  simp only [hmem, if_true]
  exact ⟨trivial, trivial⟩

/-- Witness for C9_clear: one argument suffices and effect 1's segment mapping
is emptied. -/
theorem C9_witness :
    effectsC9.any (fun kv => kv.1 == 1) = true ∧
    ([(0 : ℤ)] ≠ []) ∧
    (osc_callback effectsC9 1 none (some ("clear")) [0]).1 = [(1, ([] : List ℕ))] ∧
    (osc_callback effectsC9 1 none (some ("clear")) [0]).2 = OSCAction.cleared 1 := by
  have h := C9_clear effectsC9 1 [0] (by decide) (by decide)
  refine ⟨by decide, by decide, ?_, h.2⟩
  rw [h.1]
  decide

/-- A well-formed RGB triple: three integer channels in `[0, 255]`. -/
def GoodColor (c : List ℤ) : Prop :=
  c.length = 3 ∧ ∀ x ∈ c, 0 ≤ x ∧ x ≤ 255

/-- Invariant of the compositing state: both buffers have length `n`, every
stored colour is a well-formed RGB triple and every stored transparency lies
in `[0, 1]`. -/
def GoodState (n : ℕ) (st : LEDState) : Prop :=
  st.led_colors.length = n ∧ st.led_transparency.length = n ∧
  (∀ c ∈ st.led_colors, GoodColor c) ∧
  (∀ t ∈ st.led_transparency, 0 ≤ t ∧ t ≤ 1)

theorem goodColor_zero : GoodColor [0, 0, 0] := by
  refine ⟨rfl, ?_⟩
  intro x hx
  simp only [List.mem_cons, List.not_mem_nil, or_false] at hx
  rcases hx with h | h | h <;> subst h <;> norm_num

theorem foldl_inv {α β : Type} {P : α → Prop} (f : α → β → α) (l : List β)
    (init : α) (h0 : P init) (hf : ∀ a b, b ∈ l → P a → P (f a b)) :
    P (l.foldl f init) := by
  induction l generalizing init with
  | nil => exact h0
  | cons x xs ih =>
    exact ih (f init x) (hf init x (by simp) h0)
      (fun a b hb ha => hf a b (by simp [hb]) ha)

theorem getD_pred {α : Type} {P : α → Prop} (l : List α) (k : ℕ) (d : α)
    (hl : ∀ x ∈ l, P x) (hd : P d) : P (l.getD k d) := by
  induction l generalizing k with
  | nil => simpa [List.getD] using hd
  | cons a t ih =>
    cases k with
    | zero => exact List.getD_cons_zero ▸ hl a (by simp)
    | succ m =>
      rw [List.getD_cons_succ]
      exact ih m (fun x hx => hl x (by simp [hx]))

theorem interp_bound {a b r M : ℚ} (ha0 : 0 ≤ a) (haM : a ≤ M) (hb0 : 0 ≤ b)
    (hbM : b ≤ M) (hr0 : 0 ≤ r) (hr1 : r ≤ 1) :
    0 ≤ a + (b - a) * r ∧ a + (b - a) * r ≤ M := by
  constructor
  · nlinarith [mul_nonneg ha0 (sub_nonneg.mpr hr1), mul_nonneg hr0 hb0]
  · nlinarith [mul_nonneg (sub_nonneg.mpr haM) (sub_nonneg.mpr hr1),
               mul_nonneg hr0 (sub_nonneg.mpr hbM)]

theorem color_from_palette_good (i : ℤ) :
    GoodColor (color_utils.color_from_palette i) := by
  have hch : ∀ m : ℕ, (0 : ℤ) ≤ ((m &&& 255 : ℕ) : ℤ) ∧ ((m &&& 255 : ℕ) : ℤ) ≤ 255 := by
    intro m
    constructor
    · exact Int.natCast_nonneg _
    · exact_mod_cast @Nat.and_le_right m 255
  refine ⟨rfl, ?_⟩
  intro x hx
  simp only [color_utils.color_from_palette, List.mem_cons, List.not_mem_nil,
    or_false] at hx
  rcases hx with h | h | h <;> subst h <;> exact hch _

theorem apply_dimming_color_good {c : List ℤ} {d : ℚ} (hc : GoodColor c)
    (hd0 : 0 ≤ d) (hd1 : d ≤ 1) : GoodColor (color_utils.apply_dimming c d) := by
  obtain ⟨hlen, hmem⟩ := hc
  constructor
  · simpa [color_utils.apply_dimming] using hlen
  · intro x hx
    simp only [color_utils.apply_dimming, List.mem_map] at hx
    obtain ⟨y, hy, rfl⟩ := hx
    obtain ⟨hy0, hy255⟩ := hmem y hy
    have hy0q : (0 : ℚ) ≤ (y : ℚ) := by exact_mod_cast hy0
    have h0 : (0 : ℚ) ≤ (y : ℚ) * d := mul_nonneg hy0q hd0
    have h255 : (y : ℚ) * d ≤ ((255 : ℤ) : ℚ) := by
      calc (y : ℚ) * d ≤ (y : ℚ) * 1 := mul_le_mul_of_nonneg_left hd1 hy0q
        _ = (y : ℚ) := mul_one _
        _ ≤ ((255 : ℤ) : ℚ) := by exact_mod_cast hy255
    exact pyInt_bounds h0 h255

theorem interp_channel_bound {x y : ℤ} {r : ℚ} (hx0 : 0 ≤ x) (hx1 : x ≤ 255)
    (hy0 : 0 ≤ y) (hy1 : y ≤ 255) (hr0 : 0 ≤ r) (hr1 : r ≤ 1) :
    0 ≤ pyInt ((x : ℚ) + ((y : ℚ) - (x : ℚ)) * r) ∧
      pyInt ((x : ℚ) + ((y : ℚ) - (x : ℚ)) * r) ≤ 255 := by
  have ha0 : (0 : ℚ) ≤ (x : ℚ) := by exact_mod_cast hx0
  have haM : (x : ℚ) ≤ 255 := by exact_mod_cast hx1
  have hb0 : (0 : ℚ) ≤ (y : ℚ) := by exact_mod_cast hy0
  have hbM : (y : ℚ) ≤ 255 := by exact_mod_cast hy1
  have h := interp_bound ha0 haM hb0 hbM hr0 hr1
  exact pyInt_bounds h.1 (by exact_mod_cast h.2)

theorem interpolate_color_good {c1 c2 : List ℤ} {r : ℚ} (h1 : GoodColor c1)
    (h2 : GoodColor c2) (hr0 : 0 ≤ r) (hr1 : r ≤ 1) :
    GoodColor (color_utils.interpolate_color c1 c2 r) := by
  have g1 : ∀ k : ℕ, 0 ≤ c1.getD k 0 ∧ c1.getD k 0 ≤ 255 := fun k =>
    getD_pred c1 k 0 h1.2 (by norm_num)
  have g2 : ∀ k : ℕ, 0 ≤ c2.getD k 0 ∧ c2.getD k 0 ≤ 255 := fun k =>
    getD_pred c2 k 0 h2.2 (by norm_num)
  refine ⟨rfl, ?_⟩
  intro x hx
  simp only [color_utils.interpolate_color, List.mem_cons, List.not_mem_nil,
    or_false] at hx
  rcases hx with h | h | h <;> subst h <;>
    exact interp_channel_bound (g1 _).1 (g1 _).2 (g2 _).1 (g2 _).2 hr0 hr1

/-- The dimming envelope always lies in `[0, 1]`, whatever the dimmer list and
elapsed time. -/
theorem apply_dimming_bounds (s : LightSegment) :
    0 ≤ s.apply_dimming ∧ s.apply_dimming ≤ 1 := by
  simp only [LightSegment.apply_dimming]
  set a := s.dimmer_time.getD 0 0
  set b := s.dimmer_time.getD 1 0
  set c := s.dimmer_time.getD 2 0
  set d := s.dimmer_time.getD 3 0
  set e := s.dimmer_time.getD 4 0
  set u := pyMod s.elapsed (a + b + c + d + e)
  split_ifs with h1 h2 h3 h4 h5 h6
  · norm_num
  · norm_num
  · norm_num
  · have hb : 0 < b := by linarith
    constructor
    · exact div_nonneg (by linarith) (le_of_lt hb)
    · rw [div_le_one hb]
      linarith
  · norm_num
  · have hd : 0 < d := by linarith
    have hq0 : 0 ≤ (u - a - b - c) / d := div_nonneg (by linarith) (le_of_lt hd)
    have hq1 : (u - a - b - c) / d ≤ 1 := by
      rw [div_le_one hd]
      linarith
    constructor <;> linarith
  · norm_num

/-- The colour component of `get_light_data`: empty for a non-positive total
length, otherwise the dimmed palette colours. -/
theorem get_light_data_snd (s : LightSegment) :
    (s.get_light_data).2
      = if s.length.sum ≤ 0 then []
        else s.calculate_rgb.map
          (fun color => color_utils.apply_dimming color s.apply_dimming) := by
  simp only [LightSegment.get_light_data]
  by_cases hsum : s.length.sum ≤ 0
  · rw [if_pos hsum, if_pos hsum]
  · rw [if_neg hsum, if_neg hsum]

/-- Every anchor colour produced by `get_light_data` is a well-formed RGB
triple. -/
theorem get_light_data_colors_good (s : LightSegment) :
    ∀ c ∈ (s.get_light_data).2, GoodColor c := by
  intro c hc
  rw [get_light_data_snd] at hc
  split at hc
  · simp at hc
  · simp only [LightSegment.calculate_rgb] at hc
    rw [List.map_map, List.mem_map] at hc
    obtain ⟨i, hi, rfl⟩ := hc
    exact apply_dimming_color_good (color_from_palette_good i)
      (apply_dimming_bounds s).1 (apply_dimming_bounds s).2

theorem setLED_good {n : ℕ} {st : LEDState} {pos : ℕ} {color : List ℤ}
    {trans : ℚ} (hst : GoodState n st) (hc : GoodColor color) (ht0 : 0 ≤ trans)
    (ht1 : trans ≤ 1) : GoodState n (setLED st pos color trans) := by
  obtain ⟨hl1, hl2, hm1, hm2⟩ := hst
  unfold setLED
  split
  · refine ⟨by simpa using hl1, by simpa using hl2, ?_, ?_⟩
    · intro c hcm
      rcases List.mem_or_eq_of_mem_set hcm with h | h
      · exact hm1 c h
      · subst h
        exact hc
    · intro t htm
      rcases List.mem_or_eq_of_mem_set htm with h | h
      · exact hm2 t h
      · subst h
        exact ⟨ht0, ht1⟩
  · exact ⟨hl1, hl2, hm1, hm2⟩

theorem range_ratio_bounds {j lr : ℕ} (hj : j < lr) :
    0 ≤ (j : ℚ) / ((max 1 (lr - 1) : ℕ) : ℚ) ∧
      (j : ℚ) / ((max 1 (lr - 1) : ℕ) : ℚ) ≤ 1 := by
  have hone : (1 : ℕ) ≤ max 1 (lr - 1) := le_max_left _ _
  have hden : (0 : ℚ) < ((max 1 (lr - 1) : ℕ) : ℚ) := by
    exact_mod_cast lt_of_lt_of_le Nat.zero_lt_one hone
  constructor
  · exact div_nonneg (Nat.cast_nonneg j) (le_of_lt hden)
  · rw [div_le_one hden]
    have hjle : j ≤ max 1 (lr - 1) := by omega
    exact_mod_cast hjle

theorem processPair_good {n : ℕ} (positions : List ℚ) (colors : List (List ℤ))
    (transparency : List ℚ) (htr : ∀ t ∈ transparency, 0 ≤ t ∧ t ≤ 1)
    (hcol : ∀ c ∈ colors, GoodColor c) {st : LEDState} (hst : GoodState n st)
    (i : ℕ) : GoodState n (processPair n positions colors transparency st i) := by
  have hsc : GoodColor (colors.getD i [0, 0, 0]) :=
    getD_pred colors i [0, 0, 0] hcol goodColor_zero
  have hec : GoodColor (colors.getD (i + 1) [0, 0, 0]) :=
    getD_pred colors (i + 1) [0, 0, 0] hcol goodColor_zero
  have hstr : 0 ≤ transparency.getD i 0 ∧ transparency.getD i 0 ≤ 1 :=
    getD_pred transparency i 0 htr (by norm_num)
  have hetr : 0 ≤ transparency.getD (i + 1) 0 ∧ transparency.getD (i + 1) 0 ≤ 1 :=
    getD_pred transparency (i + 1) 0 htr (by norm_num)
  simp only [processPair]
  split_ifs with hskip heq hdir
  · exact hst
  · exact setLED_good hst hsc hstr.1 hstr.2
  · apply foldl_inv
    · exact hst
    · intro a j hj ha
      dsimp only
      split_ifs with hpos
      · exact ha
      · have hj' := List.mem_range.mp hj
        have hr := range_ratio_bounds hj'
        have htb := interp_bound hstr.1 hstr.2 hetr.1 hetr.2 hr.1 hr.2
        exact setLED_good ha (interpolate_color_good hsc hec hr.1 hr.2) htb.1 htb.2
  · apply foldl_inv
    · exact hst
    · intro a j hj ha
      dsimp only
      split_ifs with hpos
      · exact ha
      · have hj' := List.mem_range.mp hj
        have hr := range_ratio_bounds hj'
        have htb := interp_bound hstr.1 hstr.2 hetr.1 hetr.2 hr.1 hr.2
        exact setLED_good ha (interpolate_color_good hsc hec hr.1 hr.2) htb.1 htb.2

theorem processSegment_good {n : ℕ} {st : LEDState} (hst : GoodState n st)
    (seg : LightSegment) (htr : ∀ t ∈ seg.transparency, 0 ≤ t ∧ t ≤ 1) :
    GoodState n (processSegment n st seg) := by
  simp only [processSegment]
  split_ifs with hempty
  · exact hst
  · exact foldl_inv _ _ _ hst
      (fun a b hb ha =>
        processPair_good _ _ _ htr (get_light_data_colors_good seg) ha b)

theorem initState_good (n : ℕ) :
    GoodState n { led_colors := List.replicate n [0, 0, 0],
                  led_transparency := List.replicate n 1 } := by
  refine ⟨List.length_replicate n _, List.length_replicate n _, ?_, ?_⟩
  · intro c hc
    rw [List.eq_of_mem_replicate hc]
    exact goodColor_zero
  · intro t ht
    rw [List.eq_of_mem_replicate ht]
    norm_num

theorem zipWith_pred {α β γ : Type} {P : α → Prop} {Q : β → Prop}
    {R : γ → Prop} (f : α → β → γ) (l1 : List α) (l2 : List β)
    (h1 : ∀ a ∈ l1, P a) (h2 : ∀ b ∈ l2, Q b)
    (hf : ∀ a b, P a → Q b → R (f a b)) :
    ∀ c ∈ List.zipWith f l1 l2, R c := by
  induction l1 generalizing l2 with
  | nil =>
    intro c hc
    simp at hc
  | cons a t ih =>
    cases l2 with
    | nil =>
      intro c hc
      simp at hc
    | cons b t2 =>
      intro c hc
      simp only [List.zipWith_cons_cons, List.mem_cons] at hc
      rcases hc with h | h
      · subst h
        exact hf a b (h1 a (by simp)) (h2 b (by simp))
      · exact ih t2 (fun x hx => h1 x (by simp [hx]))
          (fun y hy => h2 y (by simp [hy])) c h

theorem finalize_good {c : List ℤ} {t : ℚ} (hc : GoodColor c)
    (ht : 0 ≤ t ∧ t ≤ 1) :
    GoodColor (if 1 - t > 0 then c.map (fun (x : ℤ) => pyInt ((x : ℚ) * (1 - t)))
               else c) := by
  split_ifs with ho
  · exact apply_dimming_color_good hc (by linarith [ht.2]) (by linarith [ht.1])
  · exact hc

theorem list_length_five {α : Type} (l : List α) (h : l.length = 5) :
    ∃ a b c d e, l = [a, b, c, d, e] := by
  match l, h with
  | [a, b, c, d, e], _ => exact ⟨a, b, c, d, e, rfl⟩

/-- `LightSegment.apply_dimming()` with the source's tuple unpack made
explicit: the guard only rejects lists shorter than 5, and the following
`delay_in, fade_in, stay, fade_out, delay_out = self.dimmer_time` raises
`ValueError` (modelled as `none`) for a list longer than 5. -/
def LightSegment.apply_dimming? (s : LightSegment) : Option ℚ :=
  if s.dimmer_time.length < 5 then some 1
  else
    match s.dimmer_time with
    | [delay_in, fade_in, stay, fade_out, delay_out] =>
      let total_time := delay_in + fade_in + stay + fade_out + delay_out
      if total_time ≤ 0 then some 1
      else
        let current_time := pyMod s.elapsed total_time
        if current_time < delay_in then some 0
        else if current_time < delay_in + fade_in then
          some ((current_time - delay_in) / fade_in)
        else if current_time < delay_in + fade_in + stay then some 1
        else if current_time < delay_in + fade_in + stay + fade_out then
          some (1 - (current_time - delay_in - fade_in - stay) / fade_out)
        else some 0
    | _ => none

/-- On dimmer lists of at most 5 entries (where no `ValueError` can arise) the
error-aware model agrees with the total one. -/
theorem apply_dimming?_eq (s : LightSegment) (hlen : s.dimmer_time.length ≤ 5) :
    s.apply_dimming? = some s.apply_dimming := by
  by_cases h5 : s.dimmer_time.length < 5
  · unfold LightSegment.apply_dimming? LightSegment.apply_dimming
    rw [if_pos h5, if_pos h5]
  · have hexact : s.dimmer_time.length = 5 := by omega
    obtain ⟨a, b, c, d, e, hdt⟩ := list_length_five s.dimmer_time hexact
    unfold LightSegment.apply_dimming?
    rw [apply_dimming_eq s a b c d e hdt, hdt]
    rw [if_neg (by norm_num)]
    simp only []
    split_ifs <;> rfl

/-- `LightSegment.get_light_data()` with the dimmer unpack error propagated:
the `total_length ≤ 0` early return happens before `apply_dimming()` is
called, so only the later branch can raise. -/
def LightSegment.get_light_data? (s : LightSegment) :
    Option (List ℚ × List (List ℤ)) :=
  let total_length := s.length.sum
  if total_length ≤ 0 then some ([], [])
  else
    match s.apply_dimming? with
    | none => none
    | some dimming_factor =>
      let position_offsets := List.scanl (fun a b => a + b) (0 : ℚ) s.length
      let base_position := s.current_position
      let position_offsets :=
        if s.move_speed < 0 then
          position_offsets.reverse.map (fun offset => total_length - offset)
        else position_offsets
      let positions := position_offsets.map (fun offset => base_position + offset)
      let dimmed_colors :=
        s.calculate_rgb.map (fun color => color_utils.apply_dimming color dimming_factor)
      some (positions, dimmed_colors)

theorem get_light_data?_eq (s : LightSegment) (hlen : s.dimmer_time.length ≤ 5) :
    s.get_light_data? = some s.get_light_data := by
  simp only [LightSegment.get_light_data?, LightSegment.get_light_data]
  by_cases hsum : s.length.sum ≤ 0
  · rw [if_pos hsum, if_pos hsum]
  · rw [if_neg hsum, if_neg hsum, apply_dimming?_eq s hlen]

/-- The per-segment step of `get_led_output` with an exception from
`get_light_data` propagated (an uncaught exception aborts the whole loop). -/
def processSegment? (led_count : ℕ) (st : Option LEDState)
    (segment : LightSegment) : Option LEDState :=
  match st with
  | none => none
  | some st =>
    match segment.get_light_data? with
    | none => none
    | some data =>
      if data.1 = [] ∨ data.2 = [] then some st
      else
        some ((List.range (data.1.length - 1)).foldl
          (processPair led_count data.1 data.2 segment.transparency) st)

theorem processSegment?_eq (n : ℕ) (st : LEDState) (seg : LightSegment)
    (hlen : seg.dimmer_time.length ≤ 5) :
    processSegment? n (some st) seg = some (processSegment n st seg) := by
  simp only [processSegment?, processSegment, get_light_data?_eq seg hlen]
  split_ifs <;> rfl

theorem fold_segments?_eq (n : ℕ) (segs : List LightSegment) (st : LEDState)
    (h : ∀ seg ∈ segs, seg.dimmer_time.length ≤ 5) :
    segs.foldl (processSegment? n) (some st) = some (segs.foldl (processSegment n) st) := by
  induction segs generalizing st with
  | nil => rfl
  | cons a t ih =>
    rw [List.foldl_cons, List.foldl_cons, processSegment?_eq n st a (h a (by simp))]
    exact ih _ (fun seg hs => h seg (by simp [hs]))

/-- `LightEffect.get_led_output()` with the dimmer unpack error propagated:
`none` models the uncaught `ValueError` escaping the method. -/
def LightEffect.get_led_output? (e : LightEffect) : Option (List (List ℤ)) :=
  let init : LEDState :=
    { led_colors := List.replicate e.led_count [0, 0, 0],
      led_transparency := List.replicate e.led_count 1 }
  match e.segments.foldl (processSegment? e.led_count) (some init) with
  | none => none
  | some st =>
    some (List.zipWith
      (fun color trans =>
        let opacity := 1 - trans
        if opacity > 0 then color.map (fun (c : ℤ) => pyInt ((c : ℚ) * opacity))
        else color)
      st.led_colors st.led_transparency)

theorem get_led_output?_eq (e : LightEffect)
    (h : ∀ seg ∈ e.segments, seg.dimmer_time.length ≤ 5) :
    e.get_led_output? = some e.get_led_output := by
  simp only [LightEffect.get_led_output?, LightEffect.get_led_output]
  rw [fold_segments?_eq e.led_count e.segments _ h]

/-- Segment for the C10 counterexample: well-formed by the claim's hypotheses
(4 in-range transparencies, 4 colours, 3 lengths) but with a 6-entry
`dimmer_time`, which passes the `len < 5` guard and crashes the 5-name
unpack. -/
def segC10bad : LightSegment :=
  { segC1A with dimmer_time := [1, 1, 1, 1, 1, 1] }

def effectC10bad : LightEffect :=
  { effect_ID := 9, led_count := 4, segments := [segC10bad] }

/-- C10 counterexample: this effect satisfies every hypothesis of the original
claim (its one segment has 4 transparency values in [0,1], 4 palette colours
and a 3-entry length list), yet its 6-entry `dimmer_time` makes
`apply_dimming`'s 5-name unpack raise `ValueError`, so `get_led_output`
crashes (returns no buffer) instead of returning `led_count` RGB triples. -/
theorem C10_counterexample :
    (∀ seg ∈ effectC10bad.segments,
      4 ≤ seg.transparency.length ∧ (∀ t ∈ seg.transparency, 0 ≤ t ∧ t ≤ 1) ∧
      seg.color.length = 4 ∧ seg.length.length = 3) ∧
    segC10bad.dimmer_time.length = 6 ∧
    effectC10bad.get_led_output? = none := by
  refine ⟨?_, rfl, ?_⟩
  · intro seg hseg
    have hs : seg = segC10bad := by
      simpa [effectC10bad] using hseg
    subst hs
    refine ⟨by norm_num [segC10bad, segC1A], ?_, by norm_num [segC10bad, segC1A],
      by norm_num [segC10bad, segC1A]⟩
    intro t ht
    simp only [segC10bad, segC1A, List.mem_cons, List.not_mem_nil, or_false] at ht
    rcases ht with h | h | h | h <;> subst h <;> norm_num
  · norm_num [LightEffect.get_led_output?, effectC10bad, processSegment?,
      LightSegment.get_light_data?, LightSegment.apply_dimming?, segC10bad, segC1A]

/-- C10 (amended): for a LightEffect whose every segment has at least 4
transparency values in [0,1], 4 palette colours, a 3-entry length list and a
`dimmer_time` of at most 5 entries (so the dimmer unpack cannot raise),
`get_led_output` runs without error and returns exactly `led_count` RGB
triples whose channels are integers in [0, 255] (writes stay inside the
buffers: anchor positions are clamped to `[0, led_count−1]` before
writing). -/
theorem C10_output_safe (e : LightEffect)
    (h : ∀ seg ∈ e.segments,
      4 ≤ seg.transparency.length ∧ (∀ t ∈ seg.transparency, 0 ≤ t ∧ t ≤ 1) ∧
      seg.color.length = 4 ∧ seg.length.length = 3 ∧ seg.dimmer_time.length ≤ 5) :
    e.get_led_output? = some e.get_led_output ∧
    e.get_led_output.length = e.led_count ∧
    ∀ c ∈ e.get_led_output, c.length = 3 ∧ ∀ x ∈ c, 0 ≤ x ∧ x ≤ 255 := by
  refine ⟨get_led_output?_eq e (fun seg hseg => (h seg hseg).2.2.2.2), ?_⟩
  have hstate : GoodState e.led_count
      (e.segments.foldl (processSegment e.led_count)
        { led_colors := List.replicate e.led_count [0, 0, 0],
          led_transparency := List.replicate e.led_count 1 }) :=
    foldl_inv _ _ _ (initState_good e.led_count)
      (fun a seg hseg ha => processSegment_good ha seg ((h seg hseg).2.1))
  obtain ⟨hl1, hl2, hm1, hm2⟩ := hstate
  simp only [LightEffect.get_led_output]
  constructor
  · rw [List.length_zipWith, hl1, hl2, min_self]
  · exact zipWith_pred _ _ _ hm1 hm2
      (fun color trans hcg htg => finalize_good hcg htg)

/-- One-segment effect for the C10 witness. -/
def effectC10 : LightEffect :=
  { effect_ID := 9, led_count := 4, segments := [segC1A] }

/-- Witness for C10_output_safe at a concrete well-formed effect. -/
theorem C10_witness :
    (∀ seg ∈ effectC10.segments,
      4 ≤ seg.transparency.length ∧ (∀ t ∈ seg.transparency, 0 ≤ t ∧ t ≤ 1) ∧
      seg.color.length = 4 ∧ seg.length.length = 3 ∧ seg.dimmer_time.length ≤ 5) ∧
    effectC10.get_led_output? = some effectC10.get_led_output ∧
    effectC10.get_led_output.length = effectC10.led_count ∧
    (∀ c ∈ effectC10.get_led_output, c.length = 3 ∧ ∀ x ∈ c, 0 ≤ x ∧ x ≤ 255) := by
  have hh : ∀ seg ∈ effectC10.segments,
      4 ≤ seg.transparency.length ∧ (∀ t ∈ seg.transparency, 0 ≤ t ∧ t ≤ 1) ∧
      seg.color.length = 4 ∧ seg.length.length = 3 ∧ seg.dimmer_time.length ≤ 5 := by
    intro seg hseg
    have hs : seg = segC1A := by
      simpa [effectC10] using hseg
    subst hs
    refine ⟨by norm_num [segC1A], ?_, by norm_num [segC1A], by norm_num [segC1A],
      by norm_num [segC1A]⟩
    intro t ht
    simp only [segC1A, List.mem_cons, List.not_mem_nil, or_false] at ht
    rcases ht with h | h | h | h <;> subst h <;> norm_num
  exact ⟨hh, (C10_output_safe effectC10 hh).1, (C10_output_safe effectC10 hh).2.1,
    (C10_output_safe effectC10 hh).2.2⟩
